import Mathlib

/-!
Shallow embedding of the hierarchical entity-flattening and
record-reconstruction engine of the crash-report processing repository
(`dictionary.py`, `geocoding.py`, `main.py`, `main-backup.py`), together
with theorems settling the specification claims about it.

Python strings are modelled as Lean `String`; Python `None` is modelled
with `Option` (a Python expression that may evaluate to `None` or a string
has type `Option String`).  Python dictionaries are modelled as insertion
ordered association lists.  `str.lower` is modelled per character with
`Char.toLower` (basic-latin lowering; all category/type names in the
repository are ASCII).  Float formatting of confidence values is out of
scope; confidence strings are carried through verbatim where they matter.
-/

/-- Python `str.lower()`, applied per character. -/
def pyLower (s : String) : String :=
  String.mk (s.data.map Char.toLower)

/-- The characters Python `str.strip()` removes by default. -/
def isPySpace (c : Char) : Bool :=
  c = ' ' || c = '\t' || c = '\n' || c = '\r' || c = '\x0b' || c = '\x0c'

/-- Python `str.strip()` on a character list: drop leading and trailing whitespace. -/
def pyStripList (l : List Char) : List Char :=
  ((l.dropWhile isPySpace).reverse.dropWhile isPySpace).reverse

/-- Python `str.strip()` (no argument): remove leading and trailing whitespace. -/
def pyStrip (s : String) : String :=
  String.mk (pyStripList s.data)

/-- Python `str.strip(ch)` for a single strip character. -/
def pyStripChar (ch : Char) (s : String) : String :=
  String.mk (((s.data.dropWhile (· = ch)).reverse.dropWhile (· = ch)).reverse)

/-- Python `str.replace(a, b)` for single characters. -/
def pyReplaceChar (a b : Char) (s : String) : String :=
  String.mk (s.data.map fun c => if c = a then b else c)

/-- Python `str.split(sep)` with an explicit one-character separator, on
character lists: splits at every separator and keeps empty pieces
(`"".split(c) == ['']`). -/
def pySplitListChar (sep : Char) : List Char → List (List Char)
  | [] => [[]]
  | c :: cs =>
    if c = sep then [] :: pySplitListChar sep cs
    else
      match pySplitListChar sep cs with
      | [] => [[c]]
      | g :: gs => (c :: g) :: gs

/-- Python `str.split(sep)` with an explicit one-character separator. -/
def pySplitChar (sep : Char) (s : String) : List String :=
  (pySplitListChar sep s.data).map String.mk

/-- Python `str.startswith(pre)`. -/
def pyStartswith (s pre : String) : Bool :=
  pre.data.isPrefixOf s.data

/-- Substring search on character lists (Python `sub in s`). -/
def pyInList (needle : List Char) : List Char → Bool
  | [] => needle.isPrefixOf ([] : List Char)
  | c :: t => needle.isPrefixOf (c :: t) || pyInList needle t

/-- Python substring containment `sub in s`. -/
def pyIn (sub s : String) : Bool :=
  pyInList sub.data s.data

/-- A Python dictionary key: the repository uses both string-keyed and
integer-keyed tables, and Python `dict.get` compares keys with `==`,
which is `False` across the two types. -/
inductive PyVal where
  | vint (n : Int)
  | vstr (s : String)
deriving DecidableEq, Repr

instance : BEq PyVal := ⟨fun a b => decide (a = b)⟩

/-- Python `dict.get(k)`: the stored value, or `None` when absent. -/
def pyGet (tbl : List (PyVal × String)) (k : PyVal) : Option String :=
  (tbl.find? (fun kv => kv.1 == k)).map (·.2)

/-- Build a string-keyed table (a Python dict literal with string keys). -/
def strTbl (l : List (String × String)) : List (PyVal × String) :=
  l.map (fun p => (PyVal.vstr p.1, p.2))

/-- Build an integer-keyed table (a Python dict literal with int keys). -/
def intTbl (l : List (Int × String)) : List (PyVal × String) :=
  l.map (fun p => (PyVal.vint p.1, p.2))

namespace Dictionary

/-- `Dictionary.roadway_system` (dictionary.py). -/
def roadway_system (code : String) : Option String :=
  pyGet (strTbl [("IH", "Interstate"), ("US", "US Highway"), ("SH", "State Highway"),
    ("FM", "Farm to Market"), ("RR", "Ranch Road"), ("RM", "Ranch to Market"),
    ("BI", "Business Interstate"), ("BU", "Business US"), ("BS", "Business State"),
    ("BF", "Business FM"), ("SL", "State Loop"), ("TL", "Toll Road"),
    ("AL", "Alternate"), ("SP", "Spur"), ("CR", "County Road"), ("PR", "Park Road"),
    ("PV", "Private Road"), ("RC", "Recreational Road"), ("LR", "Local Road/Street")])
    (PyVal.vstr code)

/-- `Dictionary.roadway_part` (dictionary.py). -/
def roadway_part (code : String) : Option String :=
  pyGet (strTbl [("1", "Main/Proper Lane"), ("2", "Service/Frontage Road"),
    ("3", "Entrance/On Ramp"), ("4", "Exit/Off Ramp"), ("5", "Connector/Flyover"),
    ("98", "Other (Explain in Narrative)")]) (PyVal.vstr code)

/-- `Dictionary.direction` (dictionary.py). -/
def direction (code : String) : Option String :=
  pyGet (strTbl [("N", "North"), ("E", "East"), ("S", "South"), ("W", "West"),
    ("NE", "Northeast"), ("SE", "Southeast"), ("SW", "Southwest"), ("NW", "Northwest")])
    (PyVal.vstr code)

/-- `Dictionary.street_suffix` (dictionary.py). -/
def street_suffix (code : String) : Option String :=
  pyGet (strTbl [("RD", "Road"), ("ST", "Street"), ("DR", "Drive"), ("AVE", "Avenue"),
    ("BLVD", "Boulevard"), ("PKWY", "Parkway"), ("LN", "Lane"), ("FWY", "Freeway"),
    ("HWY", "Highway"), ("WAY", "Way"), ("TRL", "Trail"), ("LOOP", "Loop"),
    ("EXPY", "Expressway"), ("CT", "Court"), ("CIR", "Circle"), ("PL", "Place"),
    ("PARK", "Park"), ("CV", "Cove"), ("PATH", "Path"), ("TRC", "Trace"),
    ("PT", "Point")]) (PyVal.vstr code)

/-- `Dictionary.unit_description` (dictionary.py). -/
def unit_description (code : String) : Option String :=
  pyGet (strTbl [("1", "Motor Vehicle"), ("2", "Train"), ("3", "Pedalcyclist"),
    ("4", "Pedestrian"), ("5", "Motorized Conveyance"), ("6", "Towed/Pushed/Trailer"),
    ("7", "Non-Contact"), ("98", "Other")]) (PyVal.vstr code)

/-- `Dictionary.vehicle_color` (dictionary.py). -/
def vehicle_color (code : String) : Option String :=
  pyGet (strTbl [("BGE", "Beige"), ("BLK", "Black"), ("BLU", "Blue"), ("BRZ", "Bronze"),
    ("BRO", "Brown"), ("CAM", "Camouflage"), ("CPR", "Copper"), ("GLD", "Gold"),
    ("GRY", "Gray"), ("GRN", "Green"), ("MAR", "Maroon"), ("MUL", "Multicolored"),
    ("ONG", "Orange"), ("PNK", "Pink"), ("PLE", "Purple"), ("RED", "Red"),
    ("SIL", "Silver"), ("TAN", "Tan"), ("TEA", "Teal(green)"),
    ("TRQ", "Turquoise (blue)"), ("WHI", "White"), ("YEL", "Yellow"),
    ("98", "Other"), ("99", "Unknown")]) (PyVal.vstr code)

/-- `Dictionary.body_style` (dictionary.py). -/
def body_style (code : String) : Option String :=
  pyGet (strTbl [("PC", "Police Car/Truck"), ("PM", "Police Motorcycle"),
    ("TL", "Trailer, Semi-Trailer, or Pole Trailer"), ("TR", "Truck"),
    ("TT", "Truck Tractor"), ("VN", "Van"), ("EV", "Neighborhood"),
    ("P2", "Passenger Car, 2-Door"), ("P4", "Passenger Car, 4-Door"),
    ("PK", "Pickup"), ("AM", "Ambulance"), ("BU", "Bus"), ("SB", "Yellow School Bus"),
    ("SBO", "School Bus Other"), ("FE", "Farm Equipment"), ("FT", "Fire Truck"),
    ("MC", "Motorcycle"), ("SV", "Sport Utility Vehicle"),
    ("98", "Other (Explain Vehicle in Narrative)"), ("99", "Unknown")])
    (PyVal.vstr code)

/-- `Dictionary.autonomous_unit` (dictionary.py). -/
def autonomous_unit (code : String) : Option String :=
  pyGet (strTbl [("1", "Yes"), ("2", "No"), ("99", "Unknown")]) (PyVal.vstr code)

/-- `Dictionary.autonomous_level_engine` (dictionary.py). -/
def autonomous_level_engine (code : String) : Option String :=
  pyGet (strTbl [("0", "No Automation"), ("1", "Driver Assistance"),
    ("2", "Partial Automation"), ("3", "Conditional Automation"),
    ("4", "High Automation"), ("5", "Full Automation"),
    ("6", "Automation Level Unknown"), ("99", "Unknown")]) (PyVal.vstr code)

/-- `Dictionary.driver_license` (dictionary.py).  The source defines
`driver_license` twice in the class body; in Python the second definition
(the restrictions table) replaces the first, so that is the one embedded. -/
def driver_license (code : String) : Option String :=
  pyGet (strTbl [("A", "With corrective lenses"), ("B", "LOFS 21 or over"),
    ("C", "Daytime driving only"), ("D", "Speed not to exceed 45 mph"),
    ("E", "No manual transmission equipped CMV"),
    ("F", "Must hold valid learner lic. to MM/DD/YY"),
    ("G", "TRC 545.424 applies until MM/DD/YY"),
    ("H", "Vehicle not to exceed 26,000 lbs GVWR"), ("I", "MC not to exceed 250cc"),
    ("J", "Licensed MC operator 21 or over in sight"), ("K", "Intrastate only"),
    ("L", "No air brake equipped CMV"), ("M", "No Class A passenger vehicle"),
    ("N", "No Class A and B passenger vehicle"), ("O", "No tractor-trailer CMV"),
    ("Q", "LOFS 21 or over vehicle above Class B"),
    ("R", "LOFS 21 or over vehicle above Class C"),
    ("S", "Outside rearview mirror or hearing aid"), ("T", "Automatic transmission"),
    ("U", "Applicable prosthetic devices"), ("V", "Medical Variance"),
    ("W", "Power steering"), ("X", "No cargo in CMV tank vehicle"),
    ("Y", "Valid TX vision or limb waiver required"),
    ("Z", "No full air brake equipped CMV"),
    ("P1", "For Class M TRC 545.424 until MM/DD/YY"), ("P2", "To/from work/school"),
    ("P3", "To/from work"), ("P4", "To/from school"),
    ("P5", "To/from work/school or LOFS 21 or over"),
    ("P6", "To/from work or LOFS 21 or over"),
    ("P7", "To/from school or LOFS 21 or over"), ("P8", "With telescopic lens"),
    ("P9", "LOFS 21 or over bus only"), ("P10", "LOFS 21 or over school bus only"),
    ("P11", "Bus not to exceed 26,000 lbs GVWR"),
    ("P12", "Passenger CMVs restrict to Class C only"),
    ("P13", "LOFS 21 or over in veh equip w/airbrake"),
    ("P14", "Operation Class B exempt veh authorized"),
    ("P15", "Operation Class A exempt veh authorized"),
    ("P16", "If CMV, school buses interstate"),
    ("P17", "If CMV, government vehicles interstate"),
    ("P18", "If CMV, only trans personal prop interstate"),
    ("P19", "If CMV, trans corpse/sick/injured interstate"),
    ("P20", "If CMV, privately trans passengers interstate"),
    ("P21", "If CMV, fire/rescue interstate"),
    ("P22", "If CMV, intra-city zone drivers interstate"),
    ("P23", "If CMV, custom-harvesting interstate"),
    ("P24", "If CMV, transporting bees/hives interstate"),
    ("P25", "If CMV, use in oil/water well service/drill"),
    ("P26", "If CMV, for operation of mobile crane"),
    ("P27", "HME Expiration Date MM/DD/YY"),
    ("P28", "FRSI CDL valid MM/DD/YY to MM/DD/YY"),
    ("P29", "FRSI CDL MM/DD/YY - MM/DD/YY or exempt B veh"),
    ("P30", "FRSI CDL MM/DD/YY - MM/DD/YY or exempt A veh"),
    ("P31", "Class C only - no taxi/bus/emergency veh"), ("P32", "Other"),
    ("P33", "No passengers in CMV bus"), ("P34", "No express or highway driving"),
    ("P35", "Restricted to operation of three-wheeled MC"), ("P36", "Moped"),
    ("P37", "Occ/Essent need DL-no CMV-see court order"),
    ("P38", "Applicable vehicle devices"), ("P39", "Ignition Interlock required"),
    ("P40", "Vehicle not to exceed Class C"), ("5", "Unlicensed"),
    ("95", "Autonomous"), ("96", "None"), ("98", "Other/Out of State"),
    ("99", "Unknown")]) (PyVal.vstr code)

/-- `Dictionary.driver_license_class` (dictionary.py). -/
def driver_license_class (code : String) : Option String :=
  pyGet (strTbl [("A", "Class A"), ("AM", "Class A and M"), ("B", "Class B"),
    ("BM", "Class B and M"), ("C", "Class C"), ("CM", "Class C and M"),
    ("M", "Class M"), ("5", "Unlicensed"), ("95", "Autonomous"),
    ("98", "Other/Out of State"), ("99", "Unknown")]) (PyVal.vstr code)

/-- `Dictionary.person_type` (dictionary.py). -/
def person_type (code : String) : Option String :=
  pyGet (strTbl [("1", "Driver"), ("2", "Passenger/Occupant"), ("3", "Pedalcyclist"),
    ("4", "Pedestrian"), ("5", "Driver of Motorcycle Type Vehicle"),
    ("6", "Passenger/Occupant on Motorcycle Type Vehicle"), ("95", "Autonomous"),
    ("98", "Other (Explain in Narrative)"), ("99", "Unknown")]) (PyVal.vstr code)

/-- `Dictionary.seat_position` (dictionary.py). -/
def seat_position (code : String) : Option String :=
  pyGet (strTbl [("1", "Front Left or Motorcycle Driver"),
    ("2", "Front Center or Motorcycle Sidecar Passenger"), ("3", "Front Right"),
    ("4", "Second Seat Left or Motorcycle Back Passenger"), ("5", "Second Seat Center"),
    ("6", "Second Seat Right"), ("7", "Third Seat Left"), ("8", "Third Seat Center"),
    ("9", "Third Seat Right"), ("10", "Cargo Area"), ("11", "Outside Vehicle"),
    ("13", "Other in Vehicle"), ("14", "Passenger in Bus"),
    ("16", "Pedestrian, Pedalcyclist, or Motorized Conveyance"), ("95", "Autonomous"),
    ("98", "Other (Explain in Narrative)"), ("99", "Unknown")]) (PyVal.vstr code)

/-- `Dictionary.injury_severity` (dictionary.py). -/
def injury_severity (code : String) : Option String :=
  pyGet (strTbl [("A", "Suspected Serious Injury"), ("B", "Suspected Minor Injury"),
    ("C", "Possible Injury"), ("K", "Fatal Injury"), ("N", "Not Injured"),
    ("95", "Autonomous"), ("99", "Unknown")]) (PyVal.vstr code)

/-- `Dictionary.ethnicity` (dictionary.py). -/
def ethnicity (code : String) : Option String :=
  pyGet (strTbl [("W", "White"), ("B", "Black"), ("H", "Hispanic"), ("A", "Asian"),
    ("I", "Amer. Indian/Alaskan Native"), ("95", "Autonomous"), ("98", "Other"),
    ("99", "Unknown")]) (PyVal.vstr code)

/-- `Dictionary.sex` (dictionary.py). -/
def sex (code : String) : Option String :=
  pyGet (strTbl [("1", "Male"), ("2", "Female"), ("95", "Autonomous"),
    ("99", "Unknown")]) (PyVal.vstr code)

/-- `Dictionary.ejected` (dictionary.py). -/
def ejected (code : String) : Option String :=
  pyGet (strTbl [("1", "No"), ("2", "Yes"), ("3", "Yes, Partial"),
    ("97", "Not Applicable"), ("99", "Unknown")]) (PyVal.vstr code)

/-- `Dictionary.restraint` (dictionary.py). -/
def restraint (code : String) : Option String :=
  pyGet (strTbl [("1", "Shoulder and Lap Belt"), ("2", "Shoulder Belt Only"),
    ("3", "Lap Belt Only"), ("4", "Child Seat, Facing Forward"),
    ("5", "Child Seat, Facing Rear"), ("6", "Child Seat, Unknown"),
    ("7", "Child Booster Seat"), ("96", "None"), ("97", "Not Applicable"),
    ("98", "Other (Explain in Narrative)"), ("99", "Unknown")]) (PyVal.vstr code)

/-- `Dictionary.airbag` (dictionary.py). -/
def airbag (code : String) : Option String :=
  pyGet (strTbl [("1", "Not Deployed"), ("2", "Deployed, Front"),
    ("3", "Deployed, Side"), ("4", "Deployed, Rear"), ("5", "Deployed, Multiple"),
    ("97", "Not Applicable"), ("99", "Unknown")]) (PyVal.vstr code)

/-- `Dictionary.helmet` (dictionary.py). -/
def helmet (code : String) : Option String :=
  pyGet (strTbl [("1", "Not Worn"), ("2", "Worn, Damaged"), ("3", "Worn, Not Damaged"),
    ("4", "Worn, Unk. Damage"), ("97", "Not Applicable"), ("99", "Unknown if Worn")])
    (PyVal.vstr code)

/-- `Dictionary.solicitation` (dictionary.py). -/
def solicitation (code : String) : Option String :=
  pyGet (strTbl [("Y", "Solicit"), ("N", "No Solicit")]) (PyVal.vstr code)

/-- `Dictionary.alc_spec` (dictionary.py). -/
def alc_spec (code : String) : Option String :=
  pyGet (strTbl [("1", "Breath"), ("2", "Blood"), ("3", "Urine"), ("4", "Refused"),
    ("96", "None"), ("98", "Other (Explain in Narrative)")]) (PyVal.vstr code)

/-- `Dictionary.drug_spec` (dictionary.py). -/
def drug_spec (code : String) : Option String :=
  pyGet (strTbl [("1", "Breath"), ("2", "Blood"), ("3", "Urine"), ("4", "Refused"),
    ("96", "None"), ("98", "Other (Explain in Narrative)")]) (PyVal.vstr code)

/-- `Dictionary.drug_result` (dictionary.py). -/
def drug_result (code : String) : Option String :=
  pyGet (strTbl [("1", "Positive"), ("2", "Negative"), ("97", "Not Applicable"),
    ("99", "Unknown")]) (PyVal.vstr code)

/-- `Dictionary.drug_category` (dictionary.py). -/
def drug_category (code : String) : Option String :=
  pyGet (strTbl [("1", "Liability Insurance Policy"), ("2", "CNS Depressants"),
    ("3", "CNS Stimulants"), ("4", "Hallucinogens"), ("6", "Narcotic Analgesics"),
    ("7", "Inhalants"), ("8", "Cannabis"), ("10", "Dissociative Anesthetics"),
    ("11", "Multiple Drugs (Explain in Narrative)"), ("97", "Not Applicable"),
    ("98", "Other Drugs (Explain in Narrative)"), ("99", "Unknown")])
    (PyVal.vstr code)

/-- `Dictionary.fin_resp_type` (dictionary.py). -/
def fin_resp_type (code : String) : Option String :=
  pyGet (strTbl [("1", "Liability Insurance Policy"),
    ("2", "Proof of Liability Insurance"), ("3", "Insurance Binder"),
    ("4", "Surety Bond"), ("5", "Certificate of Deposit with Comptroller"),
    ("6", "Certificate of Deposit with County Judge"),
    ("7", "Certificate of Self-Insurance")]) (PyVal.vstr code)

/-- `Dictionary.vehicle_damage_rate` (dictionary.py). -/
def vehicle_damage_rate (code : String) : Option String :=
  pyGet (strTbl [("VB-1", "vehicle burned, NOT due to collision"),
    ("VB-7", "vehicle catches fire due to the collision"), ("TP-0", "top damage"),
    ("VX-0", "undercarriage damage"), ("MC-1", "motorcycle, moped, scooter, etc."),
    ("NA", "Not Applicable (Farm Tractor, etc.)")]) (PyVal.vstr code)

/-- `Dictionary.weather_condition` (dictionary.py). -/
def weather_condition (code : String) : Option String :=
  pyGet (strTbl [("1", "Clear"), ("2", "Cloudy"), ("3", "Rain"), ("4", "Sleet/Hail"),
    ("5", "Snow"), ("6", "Fog"), ("7", "Blowing Sand/Snow"),
    ("8", "Severe Crosswinds"), ("98", "Other (Explain in Narrative)"),
    ("99", "Unknown")]) (PyVal.vstr code)

/-- `Dictionary.light_condition` (dictionary.py). -/
def light_condition (code : String) : Option String :=
  pyGet (strTbl [("1", "Daylight"), ("2", "Dark, Not Lighted"), ("3", "Dark, Lighted"),
    ("4", "Dark, Unknown Lighting"), ("5", "Dawn"), ("6", "Dusk"),
    ("98", "Other (Explain in Narrative)"), ("99", "Unknown")]) (PyVal.vstr code)

/-- `Dictionary.entering_roads` (dictionary.py). -/
def entering_roads (code : String) : Option String :=
  pyGet (strTbl [("2", "Three Entering Roads – T"), ("3", "Three Entering Roads – Y"),
    ("4", "Four Entering Roads"), ("5", "Five Entering Roads"),
    ("6", "Six Entering Roads"), ("7", "Traffic Circle"), ("8", "Cloverleaf"),
    ("97", "Not Applicable"), ("98", "Other (Explain in Narrative)")])
    (PyVal.vstr code)

/-- `Dictionary.roadway_type` (dictionary.py). -/
def roadway_type (code : String) : Option String :=
  pyGet (strTbl [("1", "Two-Way, Not Divided"),
    ("2", "Two-Way, Divided, Unprotected Median"),
    ("3", "Two-Way, Divided, Protected Median"), ("4", "One-Way"),
    ("98", "Other (Explain in Narrative)")]) (PyVal.vstr code)

/-- `Dictionary.roadway_alignment` (dictionary.py). -/
def roadway_alignment (code : String) : Option String :=
  pyGet (strTbl [("1", "Straight, Level"), ("2", "Straight, Grade"),
    ("3", "Straight, Hillcrest"), ("4", "Curve, Level"), ("5", "Curve, Grade"),
    ("6", "Curve, Hillcrest"), ("98", "Other (Explain in Narrative)"),
    ("99", "Unknown")]) (PyVal.vstr code)

/-- `Dictionary.surface_condition` (dictionary.py). -/
def surface_condition (code : String) : Option String :=
  pyGet (strTbl [("1", "Dry"), ("2", "Wet"), ("3", "Standing Water"), ("4", "Snow"),
    ("5", "Slush"), ("6", "Ice"), ("7", "Sand, Mud, Dirt"),
    ("98", "Other (Explain in Narrative)"), ("99", "Unknown")]) (PyVal.vstr code)

/-- `Dictionary.traffic_conntrol` (dictionary.py; the source spells it with
the doubled `n`). -/
def traffic_conntrol (code : String) : Option String :=
  pyGet (strTbl [("2", "Inoperative (Explain in Narrative)"), ("3", "Officer"),
    ("4", "Flagman"), ("5", "Signal Light"), ("6", "Flashing Red Light"),
    ("7", "Flashing Yellow Light"), ("8", "Stop Sign"), ("9", "Yield Sign"),
    ("10", "Warning Sign"), ("11", "Center Stripe/Divider"), ("12", "No Passing Zone"),
    ("13", "RR Gate/Signal"), ("15", "Crosswalk"), ("16", "Bike Lane"),
    ("17", "Marked Lanes"), ("18", "Signal Light With Red Light Running Camera"),
    ("96", "None"), ("98", "Other (Explain in Narrative)")]) (PyVal.vstr code)

/-- `Dictionary.factor_n_condition` (dictionary.py).  Unlike every other
table, the source writes this dict literal with *integer* keys, while the
`code` argument is a string: Python `dict.get` then never finds a match. -/
def factor_n_condition (code : String) : Option String :=
  pyGet (intTbl [(1, "Animal on Road - Domestic"), (2, "Animal on Road - Wild"),
    (3, "Backed without Safety"), (4, "Changed Lane when Unsafe"),
    (14, "Disabled in Traffic Lane"), (15, "Disregard Stop and Go Signal"),
    (16, "Disregard Stop Sign or Light"), (17, "Disregard Turn Marks at Intersection"),
    (18, "Disregard Warning Sign at Construction"), (19, "Distraction in Vehicle"),
    (20, "Driver Inattention"), (21, "Drove Without Headlights"),
    (22, "Failed to Control Speed"), (23, "Failed to Drive in Single Lane"),
    (24, "Failed to Give Half of Roadway"),
    (25, "Failed to Heed Warning Sign or Traffic Control Device"),
    (26, "Failed to Pass to Left Safely"), (27, "Failed to Pass to Right Safely"),
    (28, "Failed to Signal or Gave Wrong Signal"),
    (29, "Failed to Stop at Proper Place"), (30, "Failed to Stop for School Bus"),
    (31, "Failed to Stop for Train"),
    (32, "Failed to Yield ROW - Emergency Vehicle"),
    (33, "Failed to Yield ROW - Open Intersection"),
    (34, "Failed to Yield ROW - Private Drive"),
    (35, "Failed to Yield ROW - Stop Sign"),
    (36, "Failed to Yield ROW - To Pedestrian"),
    (37, "Failed to Yield ROW - Turning Left"),
    (38, "Failed to Yield ROW - Turn on Red"),
    (39, "Failed to Yield ROW - Yield Sign"), (40, "Fatigued or Asleep"),
    (41, "Faulty Evasive Action"), (42, "Fire in Vehicle"),
    (43, "Fleeing or Evading Police"), (44, "Followed Too Closely"),
    (45, "Had Been Drinking"), (46, "Handicapped Driver (Explain in Narrative)"),
    (47, "Ill (Explain in Narrative)"),
    (48, "Impaired Visibility (Explain in Narrative)"),
    (49, "Improper Start from a Stopped, Standing, or Parked Position"),
    (50, "Load Not Secured"), (51, "Opened Door Into Traffic Lane"),
    (52, "Oversized Vehicle or Load"),
    (53, "Overtake and Pass Insufficient Clearance"),
    (54, "Parked and Failed to Set Brakes"), (55, "Parked in Traffic Lane"),
    (56, "Parked without Lights"), (57, "Passed in No Passing Lane"),
    (58, "Passed on Shoulder"), (59, "Pedestrian FTYROW to Vehicle"),
    (60, "Unsafe Speed"), (61, "Speeding - (Over Limit)"),
    (62, "Taking Medication (Explain in Narrative)"),
    (63, "Turned Improperly - Cut Corner on Left"),
    (64, "Turned Improperly - Wide Right"), (65, "Turned Improperly - Wrong Lane"),
    (66, "Turned when Unsafe"), (67, "Intoxicated - Alcohol"),
    (68, "Intoxicated - Drug"), (69, "Wrong Side - Approach or Intersection"),
    (70, "Wrong Side - Not Passing"), (71, "Wrong Way - One Way Road"),
    (73, "Road Rage"), (74, "Cell/Mobile Device Use - Talking"),
    (75, "Cell/Mobile Device Use - Texting"), (76, "Cell/Mobile Device Use - Other"),
    (77, "Cell/Mobile Device Use - Unknown"),
    (78, "Failed to slow or move over for vehicles displaying emergency lights"),
    (79, "Drove on improved shoulder"), (98, "Other (Explain in Narrative)")])
    (PyVal.vstr code)

/-- `Dictionary.lookup` (dictionary.py): dispatch on the category name, in
the order of the source's `if` chain; an unmatched category falls through
to `return code`.  The call convention used throughout `main.py`
(`dictionary.lookup(dictionary, types, string)`) makes every branch a
plain function call, so the function is total and never raises. -/
def lookup (type code : String) : Option String :=
  if type = "rdwy_part" then roadway_part code
  else if type = "rdwy_sys" then roadway_system code
  else if type = "direction" then direction code
  else if type = "street_suffix" then street_suffix code
  else if type = "unit_desc" then unit_description code
  else if type = "veh_color" then vehicle_color code
  else if type = "body_style" then body_style code
  else if type = "autonomous_unit" then autonomous_unit code
  else if type = "autonomous_level_engaged" then autonomous_level_engine code
  else if type = "dl_id_type" then driver_license code
  else if type = "dl_class" then driver_license_class code
  else if type = "person_type" then person_type code
  else if type = "person_seat_position" then seat_position code
  else if type = "injury_severity" then injury_severity code
  else if type = "ethnicity" then ethnicity code
  else if type = "sex" then sex code
  else if type = "ejected" then ejected code
  else if type = "restr" then restraint code
  else if type = "airbag" then airbag code
  else if type = "helmet" then helmet code
  else if type = "sol" then solicitation code
  else if type = "alc_spec" then alc_spec code
  else if type = "drug_spec" then drug_spec code
  else if type = "drug_result" then drug_result code
  else if type = "drug_category" then drug_category code
  else if type = "fin_resp_type" then fin_resp_type code
  else if type = "vehicle_damage_rating" then vehicle_damage_rate code
  else if type = "weather_cond" then weather_condition code
  else if type = "light_cond" then light_condition code
  else if type = "entering_roads" then entering_roads code
  else if type = "roadway_type" then roadway_type code
  else if type = "roadway_alignment" then roadway_alignment code
  else if type = "surface_condition" then surface_condition code
  else if type = "traffic_control" then traffic_conntrol code
  else if type = "unit_num_contributing" ∨ type = "contributing_contributing_factors"
    then factor_n_condition code
  else some code

/-- The category names `lookup` recognizes (in the order of its branches). -/
def recognized_categories : List String :=
  ["rdwy_part", "rdwy_sys", "direction", "street_suffix", "unit_desc", "veh_color",
   "body_style", "autonomous_unit", "autonomous_level_engaged", "dl_id_type",
   "dl_class", "person_type", "person_seat_position", "injury_severity", "ethnicity",
   "sex", "ejected", "restr", "airbag", "helmet", "sol", "alc_spec", "drug_spec",
   "drug_result", "drug_category", "fin_resp_type", "vehicle_damage_rating",
   "weather_cond", "light_cond", "entering_roads", "roadway_type",
   "roadway_alignment", "surface_condition", "traffic_control",
   "unit_num_contributing", "contributing_contributing_factors"]

/-- The category function a recognized name dispatches to, as a function of
the code.  (Used to characterize `lookup` on recognized categories.) -/
def category_fn (type : String) : String → Option String :=
  if type = "rdwy_part" then roadway_part
  else if type = "rdwy_sys" then roadway_system
  else if type = "direction" then direction
  else if type = "street_suffix" then street_suffix
  else if type = "unit_desc" then unit_description
  else if type = "veh_color" then vehicle_color
  else if type = "body_style" then body_style
  else if type = "autonomous_unit" then autonomous_unit
  else if type = "autonomous_level_engaged" then autonomous_level_engine
  else if type = "dl_id_type" then driver_license
  else if type = "dl_class" then driver_license_class
  else if type = "person_type" then person_type
  else if type = "person_seat_position" then seat_position
  else if type = "injury_severity" then injury_severity
  else if type = "ethnicity" then ethnicity
  else if type = "sex" then sex
  else if type = "ejected" then ejected
  else if type = "restr" then restraint
  else if type = "airbag" then airbag
  else if type = "helmet" then helmet
  else if type = "sol" then solicitation
  else if type = "alc_spec" then alc_spec
  else if type = "drug_spec" then drug_spec
  else if type = "drug_result" then drug_result
  else if type = "drug_category" then drug_category
  else if type = "fin_resp_type" then fin_resp_type
  else if type = "vehicle_damage_rating" then vehicle_damage_rate
  else if type = "weather_cond" then weather_condition
  else if type = "light_cond" then light_condition
  else if type = "entering_roads" then entering_roads
  else if type = "roadway_type" then roadway_type
  else if type = "roadway_alignment" then roadway_alignment
  else if type = "surface_condition" then surface_condition
  else if type = "traffic_control" then traffic_conntrol
  else factor_n_condition

end Dictionary

/-! ## main.py: section assignment, boolean rendering, person description -/

/-- `DocumentAIProcessor.main_sections` (main.py), in source order. -/
def main_sections : List String :=
  ["charges", "cmv", "damage", "disposition_of_injured_killed", "factors_conditions",
   "identification_location", "investigator", "narrative", "vehicle_driver_persons"]

/-- `DocumentAIProcessor._get_entity_section` (main.py): lower-case the type,
return the first section the whole string starts with; otherwise, when the
string contains `/`, the first section its part before the first `/` starts
with; otherwise no section. -/
def get_entity_section (entity_type : String) : Option String :=
  let entity_type_lower := pyLower entity_type
  match main_sections.find? (fun sec => pyStartswith entity_type_lower sec) with
  | some sec => some sec
  | none =>
    if entity_type_lower.data.contains '/' then
      let base_type := (pySplitChar '/' entity_type_lower).headD ""
      main_sections.find? (fun sec => pyStartswith base_type sec)
    else
      none

/-- A raw OCR entity as far as section assignment is concerned
(`entity.type_`, `entity.mention_text`). -/
structure RawEntity where
  type : String
  value : String
deriving DecidableEq, Repr

/-- The per-entity record `_document_to_dict` builds (type normalized:
lower-cased, spaces to underscores); child entities are not needed by the
claims about section assignment. -/
structure EntityInfo where
  type : String
  value : String
deriving DecidableEq, Repr

/-- The `entity_info` record construction in `_document_to_dict` (main.py). -/
def entity_info (e : RawEntity) : EntityInfo :=
  { type := pyReplaceChar ' ' '_' (pyLower e.type), value := e.value }

/-- Append an entity record to the list of its section. -/
def add_to_section (sections : List (String × List EntityInfo)) (sec : String)
    (info : EntityInfo) : List (String × List EntityInfo) :=
  sections.map (fun p => if p.1 = sec then (p.1, p.2 ++ [info]) else p)

/-- The entity loop of `_document_to_dict` (main.py): entities whose type
matches no section are skipped (`continue`); the others are appended to
their section's list in document order. -/
def document_sections_core (entities : List RawEntity)
    (acc : List (String × List EntityInfo)) : List (String × List EntityInfo) :=
  match entities with
  | [] => acc
  | e :: rest =>
    match get_entity_section e.type with
    | none => document_sections_core rest acc
    | some sec => document_sections_core rest (add_to_section acc sec (entity_info e))

/-- `_document_to_dict`'s `sections` mapping (main.py): one list per section
of `main_sections`, filled by the entity loop. -/
def document_sections (entities : List RawEntity) : List (String × List EntityInfo) :=
  document_sections_core entities (main_sections.map (fun s => (s, [])))

/-- The `elgible_type` list of `match_string_for_boolean` (main.py). -/
def elgible_type : List String :=
  ["outside_city_limit", "crash_damage_1000", "owner_lesse_tick_box",
   "proof_of_fin_resp", "investigation_complete"]

/-- `DocumentAIProcessor.match_string_for_boolean` (main.py): checkbox-style
field types render to `"true"`/`"false"` depending on whether the value
contains the filled-checkbox glyph; everything else goes through
`Dictionary.lookup` keyed by the field type. -/
def match_string_for_boolean (types string : String) : Option String :=
  if pyLower types ∈ elgible_type then
    some (if pyIn "☑" (pyLower string) then "true" else "false")
  else
    Dictionary.lookup types string

/-- One output row (the dicts appended to `rows` in main.py).  `value` is an
`Option` because `Dictionary.lookup` can produce Python `None`.  Float
percentage formatting of confidences is out of scope; the field carries
the literal strings the source uses. -/
structure Row where
  page : Nat
  level : String
  type : String
  value : Option String
  confidence : String
deriving DecidableEq, Repr

/-- The fourteen positional keys of `extract_person_description` (main.py). -/
def person_description_keys : List String :=
  ["injury_severity", "age", "ethnicity", "sex", "eject", "restr", "airbag",
   "helmet", "sol", "alc_spec", "drug_spec", "drug_result", "drug_category",
   "alc_result"]

/-- The token list of `extract_person_description` (main.py): replace each
space with a newline, strip surrounding double quotes, split on newlines. -/
def person_description_values (description : String) : List String :=
  pySplitChar '\n' (pyStripChar '"' (pyReplaceChar ' ' '\n' description))

/-- `DocumentAIProcessor.extract_person_description` (main.py): one row per
key; the i-th token (or `''` beyond the end) is decoded through
`Dictionary.lookup` keyed by the key name unless it is empty. -/
def extract_person_description (child_num : Nat) (description : String) : List Row :=
  let values := person_description_values description
  person_description_keys.enum.map (fun ik =>
    let value := if ik.1 < values.length then values.getD ik.1 "" else ""
    if value = "" then
      { page := child_num, level := "child", type := ik.2, value := some "",
        confidence := "100.00%" }
    else
      { page := child_num, level := "child", type := ik.2,
        value := Dictionary.lookup ik.2 value, confidence := "100.00%" })

/-! ## main.py: composite street address (Road of Crash pass) -/

/-- The `eligible_types` street-address component list (main.py). -/
def eligible_types : List String :=
  ["block_num", "street_name", "street_prefix", "street_suffix"]

/-- The `road_of_crash` field subset (main.py). -/
def road_of_crash : List String :=
  ["rdwy_sys", "hwy_num", "rdwy_part", "block_num", "street_prefix", "street_name",
   "street_suffix", "dir_of_traffic", "speed_limit", "const_zone", "worker_present",
   "street_desc"]

/-- A child field entry (`entry` in the Road of Crash loop of main.py). -/
structure FieldEntry where
  type : String
  value : String
deriving DecidableEq, Repr

/-- Python `d[k] = v` on the `street_address` dict. -/
def pyDictSet (d : List (String × String)) (k v : String) : List (String × String) :=
  if d.any (fun p => p.1 == k) then d.map (fun p => if p.1 == k then (k, v) else p)
  else d ++ [(k, v)]

/-- Python `d.get(k, dflt)` on the `street_address` dict. -/
def pyDictGetD (d : List (String × String)) (k dflt : String) : String :=
  ((d.find? (fun p => p.1 == k)).map (·.2)).getD dflt

/-- The `full_address` f-string of main.py: the three accumulated components
and the just-arrived suffix value joined with single forced spaces, then
`str.strip()` (which trims only the ends). -/
def full_address (street_address : List (String × String)) (suffix_value : String) :
    String :=
  pyStrip (pyDictGetD street_address "block_num" "" ++ " " ++
    pyDictGetD street_address "street_prefix" "" ++ " " ++
    pyDictGetD street_address "street_name" "" ++ " " ++ suffix_value)

/-- One iteration of the Road of Crash branch of `save_excel_to_gcs`
(main.py): a non-component field renders a row through
`match_string_for_boolean`; `street_suffix` emits the synthesized
`street_address` row; the other three components are stored in the
`street_address` dict. -/
def road_of_crash_step (page_num : Nat) (street_address : List (String × String))
    (e : FieldEntry) : List (String × String) × List Row :=
  if e.type ∈ road_of_crash then
    if e.type ∉ eligible_types then
      (street_address,
        [{ page := page_num, level := "Field", type := e.type,
           value := match_string_for_boolean e.type e.value, confidence := "" }])
    else if e.type = "street_suffix" then
      (street_address,
        [{ page := page_num, level := "Field", type := "street_address",
           value := some (full_address street_address e.value), confidence := "" }])
    else
      (pyDictSet street_address e.type e.value, [])
  else
    (street_address, [])

/-- The Road of Crash pass over its child field entries in document order,
threading the `street_address` dict. -/
def road_of_crash_rows (page_num : Nat) (street_address : List (String × String)) :
    List FieldEntry → List Row
  | [] => []
  | e :: rest =>
    let sr := road_of_crash_step page_num street_address e
    sr.2 ++ road_of_crash_rows page_num sr.1 rest

/-! ## main.py: workbook sheet names -/

/-- Python `s[:31]` (Excel's sheet-name limit), by code points. -/
def pySlice31 (s : String) : String :=
  String.mk (s.data.take 31)

/-- The `identification_location` sheet name of `save_excel_to_gcs`
(main.py): `f"P{page_num}_identification_location_{parent_idx}"[:31]`. -/
def identification_sheet_name (page_num parent_idx : Nat) : String :=
  pySlice31 ("P" ++ Nat.repr page_num ++ "_identification_location_" ++
    Nat.repr parent_idx)

/-- The other-section sheet name of `save_excel_to_gcs` (main.py):
`f"P{page_num}_{parent_type}_{tracker}"[:31]`. -/
def other_section_sheet_name (page_num : Nat) (parent_type : String)
    (tracker : Nat) : String :=
  pySlice31 ("P" ++ Nat.repr page_num ++ "_" ++ parent_type ++ "_" ++
    Nat.repr tracker)

/-! ## main.py: page orchestrator -/

/-- The per-page record built in `process_document_page_by_page` (main.py);
the hierarchical fields payload is abstracted by a type parameter, the
orchestrator never inspects it. -/
structure PageData (α : Type) where
  page_number : Nat
  text : String
  hierarchical_fields : α
deriving DecidableEq, Repr

/-- The document-level result of `process_document_page_by_page` (main.py). -/
structure DocumentResult (α : Type) where
  text : String
  pages : List (PageData α)
deriving DecidableEq, Repr

/-- `DocumentAIProcessor.process_document_page_by_page` (main.py): pages are
numbered 1.. and processed by `proc` (the OCR call plus the per-page
transformation, which runs inside the same `try`); a page whose processing
raises is recorded as `None` at its index in the pre-sized result list;
`None` entries are then filtered out and the page texts joined with
newlines. -/
def process_document_page_by_page {α : Type} (total_pages : Nat)
    (proc : Nat → Except String (String × α)) : DocumentResult α :=
  let processed_pages : List (Option (PageData α)) :=
    (List.range total_pages).map (fun idx =>
      match proc (idx + 1) with
      | Except.ok tc =>
        some { page_number := idx + 1, text := tc.1, hierarchical_fields := tc.2 }
      | Except.error _ => none)
  let pages := processed_pages.filterMap id
  { text := String.intercalate "\n" (pages.map (·.text)), pages := pages }

/-! ## geocoding.py and its call site in main.py -/

/-- One entry of a geocoding result's `address_components`. -/
structure GeoComponent where
  types : List String
  long_name : String
  short_name : String
deriving DecidableEq, Repr

/-- One entry of the geocoder response's `results` list (JSON scalars are
carried as strings; they are opaque to the code under study). -/
structure GeoResult where
  address_components : List GeoComponent
  location_lat : Option String
  location_lng : Option String
  location_type : Option String
deriving DecidableEq, Repr

/-- The HTTP response of the geocoding GET request. -/
structure GeoResponse where
  status_code : Nat
  results : List GeoResult
deriving DecidableEq, Repr

/-- The `location_type` if/elif chain of `extract_location_details`
(geocoding.py): unknown or missing kinds collapse to `"UNKNOWN"`. -/
def location_type_label (lt : Option String) : String :=
  if lt = some "ROOFTOP" then "ROOFTOP"
  else if lt = some "RANGE_INTERPOLATED" then "RANGE_INTERPOLATED"
  else if lt = some "GEOMETRIC_CENTER" then "GEOMETRIC_CENTER"
  else if lt = some "APPROXIMATE" then "APPROXIMATE"
  else "UNKNOWN"

/-- One entry of `Geocoding.extract_location_details` (geocoding.py): the
county loop keeps the last matching component; `state` takes the first
matching component; `county_fisp_code` is always `None`; insertion order
of the dict is preserved. -/
def location_details_entry (r : GeoResult) : List (String × Option String) :=
  let counties := r.address_components.foldl
    (fun acc c =>
      if "administrative_area_level_2" ∈ c.types then (some c.long_name, some c.short_name)
      else acc)
    ((none, none) : Option String × Option String)
  [("county_full", counties.1), ("county_short", counties.2),
   ("county_fisp_code", none),
   ("state", (r.address_components.find?
      (fun c => "administrative_area_level_1" ∈ c.types)).map (·.short_name)),
   ("latitude", r.location_lat), ("longitude", r.location_lng),
   ("location_type", some (location_type_label r.location_type))]

/-- `Geocoding.extract_location_details` (geocoding.py). -/
def extract_location_details (results : List GeoResult) :
    List (List (String × Option String)) :=
  results.map location_details_entry

/-- `Geocoding.call` (geocoding.py): a 200 response yields the extracted
details; any other status prints an error and returns Python `None`. -/
def geocoding_call (resp : GeoResponse) : Option (List (List (String × Option String))) :=
  if resp.status_code = 200 then some (extract_location_details resp.results) else none

/-- The geocoding call site in `save_excel_to_gcs` (main.py): the returned
value is iterated (`for geocode in geocode_res`), which raises `TypeError`
when `Geocoding.call` returned `None`; otherwise each key/value pair of
each detail dict becomes one row. -/
def geocode_augment_rows (page_num : Nat)
    (geocode_res : Option (List (List (String × Option String)))) :
    Except String (List Row) :=
  match geocode_res with
  | none => Except.error "TypeError: NoneType object is not iterable"
  | some gs =>
    Except.ok (gs.flatMap (fun geocode => geocode.map (fun kv =>
      { page := page_num, level := "Field", type := kv.1, value := kv.2,
        confidence := "" })))

/-! ## main-backup.py: per-unit cross-section linking -/

/-- A grandchild entity of main-backup.py's hierarchical fields. -/
structure BEntity where
  type : String
  value : String
deriving DecidableEq, Repr

/-- A child field occurrence (`field`) holding grandchild entities. -/
structure UField where
  value : String
  entities : List BEntity
deriving DecidableEq, Repr

/-- A section ParentRecord (`charge_entry` / `factor_entry` / `disp_entry`). -/
structure BParent where
  child_fields : List (String × List UField)
deriving DecidableEq, Repr

/-- Python `parent.get("child_fields", {}).get(k, [])`. -/
def child_fields_get (p : BParent) (k : String) : List UField :=
  ((p.child_fields.find? (fun q => q.1 == k)).map (·.2)).getD []

/-- Python `next((e.get("value") for e in entities if e.get("type") == t), "")`. -/
def next_value (entities : List BEntity) (t : String) : String :=
  ((entities.find? (fun e => e.type == t)).map (·.value)).getD ""

/-- The matching test of the unit-linking loops (main-backup.py):
`any(e.get("type") == t and e.get("value") == unit_num for e in entities)`. -/
def has_unit_entity (t unit_num : String) (f : UField) : Bool :=
  f.entities.any (fun e => e.type == t && e.value == unit_num)

/-- The charge details written per matching charge field (main-backup.py). -/
structure ChargeDetail where
  person_num : String
  charge : String
  citation : String
deriving DecidableEq, Repr

/-- The inner charges loop (main-backup.py): one detail block per matching
`unit_num` field occurrence, in document order. -/
def charge_rows (unit_num : String) : List UField → List ChargeDetail
  | [] => []
  | f :: rest =>
    if has_unit_entity "unit_num_charges" unit_num f then
      { person_num := next_value f.entities "person_num_charges",
        charge := next_value f.entities "charge",
        citation := next_value f.entities "citation_ref_num" } ::
        charge_rows unit_num rest
    else
      charge_rows unit_num rest

/-- The outer charges loop (main-backup.py): scan every `charges`
ParentRecord in document order. -/
def charges_for_unit (unit_num : String) : List BParent → List ChargeDetail
  | [] => []
  | ce :: rest =>
    charge_rows unit_num (child_fields_get ce "unit_num") ++
      charges_for_unit unit_num rest

/-- The `factor_fields` label table of the factors loop (main-backup.py). -/
def factor_field_pairs : List (String × String) :=
  [("contributing_contributing_factors", "Contributing Factor"),
   ("weather_cond", "Weather Condition"), ("roadway_type", "Road Type"),
   ("traffic_control", "Traffic Control"), ("surface_condition", "Surface Condition")]

/-- The factor detail written per matching factors field (main-backup.py):
only fields with a non-empty value are written, in table order. -/
def factor_detail (entities : List BEntity) : List (String × String) :=
  factor_field_pairs.filterMap (fun p =>
    let v := next_value entities p.1
    if v = "" then none else some (p.2, v))

/-- The inner factors loop (main-backup.py). -/
def factor_rows (unit_num : String) : List UField → List (List (String × String))
  | [] => []
  | f :: rest =>
    if has_unit_entity "unit_num_contributing" unit_num f then
      factor_detail f.entities :: factor_rows unit_num rest
    else
      factor_rows unit_num rest

/-- The outer factors loop (main-backup.py): the unit-number field
occurrences live under the `unit_contributing_factors` child key. -/
def factors_for_unit (unit_num : String) : List BParent → List (List (String × String))
  | [] => []
  | fe :: rest =>
    factor_rows unit_num (child_fields_get fe "unit_contributing_factors") ++
      factors_for_unit unit_num rest

/-- The disposition details written per matching disposition field
(main-backup.py). -/
structure DispositionDetail where
  person_num : String
  taken_to : String
  taken_by : String
deriving DecidableEq, Repr

/-- The inner disposition loop (main-backup.py). -/
def disposition_rows (unit_num : String) : List UField → List DispositionDetail
  | [] => []
  | f :: rest =>
    if has_unit_entity "unit_num_disp" unit_num f then
      { person_num := next_value f.entities "person_num_disposition",
        taken_to := next_value f.entities "taken_to",
        taken_by := next_value f.entities "taken_by" } ::
        disposition_rows unit_num rest
    else
      disposition_rows unit_num rest

/-- The outer disposition loop (main-backup.py): the unit-number field
occurrences live under the `unit_num_disposition` child key. -/
def disposition_for_unit (unit_num : String) :
    List BParent → List DispositionDetail
  | [] => []
  | de :: rest =>
    disposition_rows unit_num (child_fields_get de "unit_num_disposition") ++
      disposition_for_unit unit_num rest

/-! ## Helper lemmas -/

/-- An integer-keyed Python dict never yields a value for a string key. -/
theorem pyGet_intTbl_vstr (l : List (Int × String)) (s : String) :
    pyGet (intTbl l) (PyVal.vstr s) = none := by
  induction l with
  | nil => rfl
  | cons p rest ih =>
    simp only [pyGet, intTbl, List.map_cons, List.find?_cons] at ih ⊢
    have : ((PyVal.vint p.1 == PyVal.vstr s) : Bool) = false := by
      simp [instBEqPyVal]
    rw [this]
    exact ih

/-- `lookup` on the unrecognized category `age` passes the code through. -/
theorem lookup_age (v : String) : Dictionary.lookup "age" v = some v := by
  simp [Dictionary.lookup]

/-- A list whose first and last characters are not whitespace is unchanged
by Python `strip()`. -/
theorem pyStripList_eq_self (l : List Char)
    (hh : ∀ c, l.head? = some c → isPySpace c = false)
    (hl : ∀ c, l.getLast? = some c → isPySpace c = false) :
    pyStripList l = l := by
  unfold pyStripList
  have h1 : l.dropWhile isPySpace = l := by
    cases l with
    | nil => rfl
    | cons a t =>
      rw [List.dropWhile_cons_of_neg]
      simp [hh a rfl]
  rw [h1]
  have h2 : l.reverse.dropWhile isPySpace = l.reverse := by
    cases hr : l.reverse with
    | nil => rfl
    | cons a t =>
      have hla : l.getLast? = some a := by
        rw [List.getLast?_eq_head?_reverse, hr]
        rfl
      rw [List.dropWhile_cons_of_neg]
      simp [hl a hla]
  rw [h2, List.reverse_reverse]

/-- The decimal digit list underlying `Nat.repr`. -/
def natDecChars (n : Nat) : List Char :=
  if h : n / 10 = 0 then [Nat.digitChar (n % 10)]
  else natDecChars (n / 10) ++ [Nat.digitChar (n % 10)]
decreasing_by
  exact Nat.div_lt_self (Nat.pos_of_ne_zero (fun hn => h (by simp [hn]))) (by decide)

theorem natDecChars_ne_nil (n : Nat) : natDecChars n ≠ [] := by
  rw [natDecChars]
  split <;> simp

theorem toDigitsCore_eq_natDecChars :
    ∀ (f n : Nat) (l : List Char), n < f →
      Nat.toDigitsCore 10 f n l = natDecChars n ++ l := by
  intro f
  induction f with
  | zero => intro n l h; exact absurd h (Nat.not_lt_zero n)
  | succ f ih =>
    intro n l h
    simp only [Nat.toDigitsCore]
    by_cases h0 : n / 10 = 0
    · rw [if_pos h0, natDecChars, dif_pos h0]
      rfl
    · rw [if_neg h0]
      have hpos : 0 < n := Nat.pos_of_ne_zero (fun hn => h0 (by simp [hn]))
      have hlt : n / 10 < f :=
        Nat.lt_of_lt_of_le (Nat.div_lt_self hpos (by decide)) (Nat.le_of_lt_succ h)
      rw [ih (n / 10) _ hlt]
      conv_rhs => rw [natDecChars, dif_neg h0]
      simp

theorem digitChar_inj_below_ten :
    ∀ a < 10, ∀ b < 10, Nat.digitChar a = Nat.digitChar b → a = b := by decide

theorem natDecChars_injective : ∀ n m : Nat, natDecChars n = natDecChars m → n = m := by
  intro n
  induction n using Nat.strong_induction_on with
  | _ n ih =>
    intro m h
    rw [natDecChars] at h
    conv at h =>
      rhs
      rw [natDecChars]
    by_cases hn : n / 10 = 0 <;> by_cases hm : m / 10 = 0
    · rw [dif_pos hn, dif_pos hm] at h
      have hdig : (n % 10).digitChar = (m % 10).digitChar := by simpa using h
      have hmod : n % 10 = m % 10 :=
        digitChar_inj_below_ten _ (Nat.mod_lt n (by decide)) _
          (Nat.mod_lt m (by decide)) hdig
      omega
    · rw [dif_pos hn, dif_neg hm] at h
      have hlen := congrArg List.length h
      simp only [List.length_cons, List.length_nil, List.length_append] at hlen
      exact absurd (List.length_eq_zero.mp (by omega)) (natDecChars_ne_nil (m / 10))
    · rw [dif_neg hn, dif_pos hm] at h
      have hlen := congrArg List.length h
      simp only [List.length_cons, List.length_nil, List.length_append] at hlen
      exact absurd (List.length_eq_zero.mp (by omega)) (natDecChars_ne_nil (n / 10))
    · rw [dif_neg hn, dif_neg hm] at h
      have hrev := congrArg List.reverse h
      simp only [List.reverse_append, List.reverse_cons, List.reverse_nil,
        List.nil_append, List.singleton_append, List.cons.injEq] at hrev
      obtain ⟨hdig, htail⟩ := hrev
      have hmod : n % 10 = m % 10 :=
        digitChar_inj_below_ten _ (Nat.mod_lt n (by decide)) _
          (Nat.mod_lt m (by decide)) hdig
      have hpos : 0 < n := by omega
      have hdiv : n / 10 = m / 10 :=
        ih (n / 10) (Nat.div_lt_self hpos (by decide)) (m / 10)
          (List.reverse_injective htail)
      omega

/-- Decimal printing of naturals is injective. -/
theorem nat_repr_injective {n m : Nat} (h : Nat.repr n = Nat.repr m) : n = m := by
  have e : ∀ k : Nat, (Nat.repr k).data = natDecChars k := by
    intro k
    show (Nat.toDigitsCore 10 (k + 1) k []).asString.data = natDecChars k
    rw [show ∀ l : List Char, l.asString.data = l from fun _ => rfl,
      toDigitsCore_eq_natDecChars (k + 1) k [] (Nat.lt_succ_self k), List.append_nil]
  have hd : (Nat.repr n).data = (Nat.repr m).data := by rw [h]
  rw [e n, e m] at hd
  exact natDecChars_injective n m hd

/-- Python `s[:31]` leaves a short enough string unchanged. -/
theorem pySlice31_of_le (s : String) (h : s.data.length ≤ 31) : pySlice31 s = s := by
  unfold pySlice31
  rw [List.take_of_length_le h]

/-- Right cancellation for string append. -/
theorem string_append_cancel_left {s a b : String} (h : s ++ a = s ++ b) : a = b := by
  have hd : (s ++ a).data = (s ++ b).data := by rw [h]
  rw [String.data_append, String.data_append] at hd
  exact String.ext (List.append_cancel_left hd)

/-- `Char.toLower` neither produces nor destroys the checkbox glyph. -/
theorem toLower_eq_checkbox_iff (c : Char) : Char.toLower c = '☑' ↔ c = '☑' := by
  simp only [Char.toLower]
  by_cases hc : c.toNat ≥ 65 ∧ c.toNat ≤ 90
  · rw [if_pos hc]
    constructor
    · intro h
      exfalso
      obtain ⟨h1, h2⟩ := hc
      have hb1 : 97 ≤ c.toNat + 32 := by omega
      have hb2 : c.toNat + 32 ≤ 122 := by omega
      generalize hm : c.toNat + 32 = m at h hb1 hb2
      interval_cases m <;> exact absurd h (by decide)
    · intro h
      subst h
      exact absurd hc.2 (by decide)
  · rw [if_neg hc]

theorem contains_map_toLower_checkbox (l : List Char) :
    (l.map Char.toLower).contains '☑' = l.contains '☑' := by
  induction l with
  | nil => rfl
  | cons a t ih =>
    simp only [List.map_cons, List.contains_cons, ih]
    congr 1
    by_cases h : a = '☑'
    · subst h
      rfl
    · have h2 : Char.toLower a ≠ '☑' := fun hh => h ((toLower_eq_checkbox_iff a).mp hh)
      have e1 : ('☑' == Char.toLower a) = false :=
        beq_eq_false_iff_ne.mpr (fun hh => h2 hh.symm)
      have e2 : ('☑' == a) = false := beq_eq_false_iff_ne.mpr (fun hh => h hh.symm)
      rw [e1, e2]

theorem pyInList_singleton (c : Char) : ∀ l : List Char, pyInList [c] l = l.contains c := by
  intro l
  induction l with
  | nil => rfl
  | cons a t ih =>
    simp only [pyInList, List.isPrefixOf, Bool.and_true, ih, List.contains_cons]

/-- Lower-casing a Python string does not change whether it contains the
checkbox glyph. -/
theorem pyIn_checkbox_pyLower (s : String) : pyIn "☑" (pyLower s) = pyIn "☑" s := by
  show pyInList ['☑'] (s.data.map Char.toLower) = pyInList ['☑'] s.data
  rw [pyInList_singleton, pyInList_singleton, contains_map_toLower_checkbox]

/-- The row `extract_person_description` is expected to produce at index
`i` for key `k`: the i-th token (empty beyond the end of the token list)
decoded through `Dictionary.lookup` keyed by `k` unless empty. -/
def expected_person_row (child_num : Nat) (description : String) (i : Nat)
    (k : String) : Row :=
  let v := (person_description_values description).getD i ""
  if v = "" then
    { page := child_num, level := "child", type := k, value := some "",
      confidence := "100.00%" }
  else
    { page := child_num, level := "child", type := k,
      value := Dictionary.lookup k v, confidence := "100.00%" }

theorem extract_person_description_getElem (c : Nat) (d : String) (i : Nat) :
    (extract_person_description c d)[i]? =
      (person_description_keys[i]?).map (expected_person_row c d i) := by
  unfold extract_person_description
  rw [List.getElem?_map, List.getElem?_enum]
  cases hk : person_description_keys[i]? with
  | none => rfl
  | some k =>
    simp only [Option.map_some']
    congr 1
    unfold expected_person_row
    by_cases hlt : i < (person_description_values d).length
    · simp [hlt]
    · have hle : (person_description_values d).length ≤ i := Nat.le_of_not_lt hlt
      simp [hlt, List.getD_eq_getElem?_getD, List.getElem?_eq_none hle]

/-- The pages list of the orchestrator, as a `filterMap` over page indices. -/
theorem process_pages_eq {α : Type} (total_pages : Nat)
    (proc : Nat → Except String (String × α)) :
    (process_document_page_by_page total_pages proc).pages =
      (List.range total_pages).filterMap (fun idx =>
        match proc (idx + 1) with
        | Except.ok tc =>
          some { page_number := idx + 1, text := tc.1, hierarchical_fields := tc.2 }
        | Except.error _ => none) := by
  unfold process_document_page_by_page
  dsimp only
  rw [List.filterMap_map]
  rfl

/-- The page numbers the orchestrator keeps are exactly the successfully
processed indices, shifted to 1-based numbering. -/
theorem process_pages_map_page_number {α : Type} (total_pages : Nat)
    (proc : Nat → Except String (String × α)) :
    ((process_document_page_by_page total_pages proc).pages).map (·.page_number) =
      ((List.range total_pages).filter (fun idx => (proc (idx + 1)).isOk)).map (· + 1) := by
  rw [process_pages_eq]
  have key : ∀ l : List Nat,
      ((l.filterMap (fun idx =>
        match proc (idx + 1) with
        | Except.ok tc =>
          some ({ page_number := idx + 1, text := tc.1, hierarchical_fields := tc.2 } :
            PageData α)
        | Except.error _ => none)).map (·.page_number)) =
      ((l.filter (fun idx => (proc (idx + 1)).isOk)).map (· + 1)) := by
    intro l
    induction l with
    | nil => rfl
    | cons a t ih =>
      rw [List.filterMap_cons, List.filter_cons]
      cases hp : proc (a + 1) with
      | ok tc => simp [hp, Except.isOk, Except.toBool, ih]
      | error e => simp [hp, Except.isOk, Except.toBool, ih]
  exact key _

/-- `charge_rows` is the filter of the matching fields, mapped to details. -/
theorem charge_rows_eq (unit_num : String) (fs : List UField) :
    charge_rows unit_num fs =
      (fs.filter (has_unit_entity "unit_num_charges" unit_num)).map (fun f =>
        { person_num := next_value f.entities "person_num_charges",
          charge := next_value f.entities "charge",
          citation := next_value f.entities "citation_ref_num" }) := by
  induction fs with
  | nil => rfl
  | cons f rest ih =>
    rw [charge_rows, List.filter_cons]
    by_cases hf : has_unit_entity "unit_num_charges" unit_num f
    · simp [hf, ih]
    · simp [hf, ih]

/-- `factor_rows` is the filter of the matching fields, mapped to details. -/
theorem factor_rows_eq (unit_num : String) (fs : List UField) :
    factor_rows unit_num fs =
      (fs.filter (has_unit_entity "unit_num_contributing" unit_num)).map (fun f =>
        factor_detail f.entities) := by
  induction fs with
  | nil => rfl
  | cons f rest ih =>
    rw [factor_rows, List.filter_cons]
    by_cases hf : has_unit_entity "unit_num_contributing" unit_num f
    · simp [hf, ih]
    · simp [hf, ih]

/-- `disposition_rows` is the filter of the matching fields, mapped to details. -/
theorem disposition_rows_eq (unit_num : String) (fs : List UField) :
    disposition_rows unit_num fs =
      (fs.filter (has_unit_entity "unit_num_disp" unit_num)).map (fun f =>
        { person_num := next_value f.entities "person_num_disposition",
          taken_to := next_value f.entities "taken_to",
          taken_by := next_value f.entities "taken_by" }) := by
  induction fs with
  | nil => rfl
  | cons f rest ih =>
    rw [disposition_rows, List.filter_cons]
    by_cases hf : has_unit_entity "unit_num_disp" unit_num f
    · simp [hf, ih]
    · simp [hf, ih]

/-- The section lists built by `_document_to_dict` are the in-order filters
of the entities assigned to each section. -/
theorem document_sections_core_eq (entities : List RawEntity) :
    ∀ acc : List (String × List EntityInfo),
      document_sections_core entities acc =
        acc.map (fun p => (p.1,
          p.2 ++ (entities.filter
            (fun e => get_entity_section e.type = some p.1)).map entity_info)) := by
  induction entities with
  | nil =>
    intro acc
    simp [document_sections_core]
  | cons e rest ih =>
    intro acc
    rw [document_sections_core]
    cases hs : get_entity_section e.type with
    | none =>
      dsimp only
      rw [ih]
      apply List.map_congr_left
      intro q hq
      simp [List.filter_cons, hs]
    | some sec =>
      dsimp only
      rw [ih]
      simp only [add_to_section, List.map_map]
      apply List.map_congr_left
      intro q hq
      by_cases hqs : q.1 = sec
      · simp [Function.comp, List.filter_cons, hs, hqs]
      · have hqs2 : ¬ sec = q.1 := fun hh => hqs hh.symm
        simp [Function.comp, List.filter_cons, hs, hqs, hqs2]

theorem document_sections_eq (entities : List RawEntity) :
    document_sections entities =
      main_sections.map (fun s => (s,
        (entities.filter (fun e => get_entity_section e.type = some s)).map
          entity_info)) := by
  unfold document_sections
  rw [document_sections_core_eq, List.map_map]
  simp [Function.comp]

/-! ## Claims -/

/-- Claim C1, counterexample: for the recognized category `direction` and the
absent code `"Q"`, `Dictionary.lookup` returns Python `None` (`none`), not
the code unchanged; and for `unit_num_contributing` even in-table-looking
codes return `None` because the table is integer-keyed. -/
theorem claim_C1_counterexample :
    Dictionary.lookup "direction" "Q" = none ∧
    Dictionary.lookup "direction" "Q" ≠ some "Q" ∧
    Dictionary.lookup "unit_num_contributing" "22" = none := by
  refine ⟨by decide, by decide, by decide⟩

set_option maxHeartbeats 1600000 in
/-- Claim C1, amended: `Dictionary.lookup` is total and never raises; for a
category name outside the recognized set it returns the code unchanged; for
a recognized category it returns that category's table access, which is the
label when the code is a key and Python `None` when it is not; and for
`unit_num_contributing` every string code yields `None`, because the
contributing-factor table is written with integer keys. -/
theorem claim_C1_lookup_amended (type code : String) :
    (type ∉ Dictionary.recognized_categories →
      Dictionary.lookup type code = some code) ∧
    (∀ t ∈ Dictionary.recognized_categories,
      Dictionary.lookup t code = Dictionary.category_fn t code) ∧
    Dictionary.lookup "unit_num_contributing" code = none := by
  refine ⟨?_, ?_, ?_⟩
  · intro h
    simp only [Dictionary.recognized_categories, List.mem_cons,
      List.not_mem_nil, or_false, not_or] at h
    obtain ⟨h1, h2, h3, h4, h5, h6, h7, h8, h9, h10, h11, h12, h13, h14, h15,
      h16, h17, h18, h19, h20, h21, h22, h23, h24, h25, h26, h27, h28, h29,
      h30, h31, h32, h33, h34, h35, h36⟩ := h
    simp [Dictionary.lookup, h1, h2, h3, h4, h5, h6, h7, h8, h9, h10, h11,
      h12, h13, h14, h15, h16, h17, h18, h19, h20, h21, h22, h23, h24, h25,
      h26, h27, h28, h29, h30, h31, h32, h33, h34, h35, h36]
  · intro t ht
    fin_cases ht <;> simp [Dictionary.lookup, Dictionary.category_fn]
  · rw [show Dictionary.lookup "unit_num_contributing" code =
      Dictionary.factor_n_condition code from by simp [Dictionary.lookup]]
    exact pyGet_intTbl_vstr _ _

/-- Claim C1, witness: the amended theorem applied to the unrecognized
category `age` (passthrough) and to the recognized category `direction`. -/
theorem claim_C1_witness :
    Dictionary.lookup "age" "27" = some "27" ∧
    Dictionary.lookup "direction" "N" = Dictionary.category_fn "direction" "N" :=
  ⟨(claim_C1_lookup_amended "age" "27").1 (by decide),
   (claim_C1_lookup_amended "direction" "N").2.1 "direction" (by decide)⟩

/-- Claim C7: a geocoder failure (non-200 response) is not harmless — the
claim is right about the intent but wrong about the code.  `Geocoding.call`
returns Python `None` on a non-200 status, and the call site in
`save_excel_to_gcs` immediately iterates over the result, raising
`TypeError` and aborting the reconstruction of the record; with a 200
response the same call site succeeds (here with zero results). -/
theorem claim_C7_geocoder_failure_aborts :
    geocoding_call { status_code := 500, results := [] } = none ∧
    geocode_augment_rows 1 (geocoding_call { status_code := 500, results := [] }) =
      Except.error "TypeError: NoneType object is not iterable" ∧
    geocode_augment_rows 1 (geocoding_call { status_code := 200, results := [] }) =
      Except.ok [] :=
  ⟨rfl, rfl, rfl⟩

/-- Claim C2, counterexample: with an empty `street_prefix`, the street
address synthesized by the Road of Crash pass is `"100  Main ST"` with a
doubled interior space — `str.strip()` trims only the ends — and not the
claimed `"100 Main ST"`. -/
theorem claim_C2_counterexample :
    road_of_crash_rows 1 [] [⟨"block_num", "100"⟩, ⟨"street_prefix", ""⟩,
      ⟨"street_name", "Main"⟩, ⟨"street_suffix", "ST"⟩] =
      [{ page := 1, level := "Field", type := "street_address",
         value := some "100  Main ST", confidence := "" }] ∧
    ("100  Main ST" : String) ≠ "100 Main ST" := by
  refine ⟨by decide, by decide⟩

/-- Claim C2, amended: when the four components arrive in document order and
each is non-empty and free of whitespace, the synthesized `street_address`
is the space-joined concatenation with single interior spaces and no
leading or trailing whitespace (so `"100"`, `"N"`, `"Main"`, `"ST"` give
exactly `"100 N Main ST"`); an empty interior component, however, leaves a
doubled interior space (see the counterexample), because the code joins
with forced single spaces and then only strips the ends.  Only the first
component's leading characters and the last component's trailing
characters are ever removed, so the hypotheses only constrain those. -/
theorem claim_C2_street_address_amended (page_num : Nat) (b p n s : String)
    (hb : b.data ≠ []) (hbc : ∀ c ∈ b.data, isPySpace c = false)
    (hsn : s.data ≠ []) (hsc : ∀ c ∈ s.data, isPySpace c = false) :
    road_of_crash_rows page_num [] [⟨"block_num", b⟩, ⟨"street_prefix", p⟩,
      ⟨"street_name", n⟩, ⟨"street_suffix", s⟩] =
      [{ page := page_num, level := "Field", type := "street_address",
         value := some (b ++ " " ++ p ++ " " ++ n ++ " " ++ s),
         confidence := "" }] := by
  have hshape : road_of_crash_rows page_num [] [⟨"block_num", b⟩,
      ⟨"street_prefix", p⟩, ⟨"street_name", n⟩, ⟨"street_suffix", s⟩] =
      [{ page := page_num, level := "Field", type := "street_address",
         value := some (pyStrip (b ++ " " ++ p ++ " " ++ n ++ " " ++ s)),
         confidence := "" }] := rfl
  rw [hshape]
  suffices hstr : pyStrip (b ++ " " ++ p ++ " " ++ n ++ " " ++ s) =
      b ++ " " ++ p ++ " " ++ n ++ " " ++ s by rw [hstr]
  show String.mk (pyStripList (b ++ " " ++ p ++ " " ++ n ++ " " ++ s).data) = _
  rw [pyStripList_eq_self]
  · intro c hc
    rw [show (b ++ " " ++ p ++ " " ++ n ++ " " ++ s).data =
      b.data ++ ((" " ++ p ++ " " ++ n ++ " " ++ s : String)).data from by
        simp] at hc
    rcases hbd : b.data with _ | ⟨cb, tb⟩
    · exact absurd hbd hb
    · rw [hbd] at hc
      simp only [List.cons_append, List.head?_cons, Option.some.injEq] at hc
      subst hc
      exact hbc cb (hbd ▸ List.mem_cons_self cb tb)
  · intro c hc
    rw [show (b ++ " " ++ p ++ " " ++ n ++ " " ++ s).data =
      ((b ++ " " ++ p ++ " " ++ n ++ " " : String)).data ++ s.data from by
        simp] at hc
    rw [List.getLast?_append] at hc
    have hsome : s.data.getLast?.isSome := List.getLast?_isSome.mpr hsn
    obtain ⟨z, hz⟩ := Option.isSome_iff_exists.mp hsome
    rw [hz, Option.or_some] at hc
    have hcz : z = c := by simpa using hc
    subst hcz
    exact hsc z (List.mem_of_getLast?_eq_some hz)

/-- Claim C2, witness: the amended theorem at the concrete components of the
claim, yielding exactly `"100 N Main ST"`. -/
theorem claim_C2_witness :
    road_of_crash_rows 7 [] [⟨"block_num", "100"⟩, ⟨"street_prefix", "N"⟩,
      ⟨"street_name", "Main"⟩, ⟨"street_suffix", "ST"⟩] =
      [{ page := 7, level := "Field", type := "street_address",
         value := some "100 N Main ST", confidence := "" }] := by
  have h := claim_C2_street_address_amended 7 "100" "N" "Main" "ST"
    (by decide) (by decide) (by decide) (by decide)
  rw [h]
  decide

/-- Claim C3: `extract_person_description` splits the blob on spaces and
newlines into positional tokens (the blob's spaces are first replaced with
newlines, surrounding double quotes stripped, then the string is split on
newlines) and maps token i to the i-th of the fourteen fixed keys; every
non-empty token is decoded via `Dictionary.lookup` keyed by its key name —
for `age` (index 1) the category is unrecognized, so the token passes
through verbatim — and when the blob has fewer than fourteen tokens the
missing trailing fields resolve to the empty string without raising. -/
theorem claim_C3_person_description (child_num : Nat) (description : String) :
    ((extract_person_description child_num description).map (·.type) =
      person_description_keys) ∧
    (∀ i : Nat, (extract_person_description child_num description)[i]? =
      (person_description_keys[i]?).map
        (expected_person_row child_num description i)) ∧
    ((extract_person_description child_num description)[1]? =
      some { page := child_num, level := "child", type := "age",
             value := some ((person_description_values description).getD 1 ""),
             confidence := "100.00%" }) ∧
    (∀ i : Nat, (person_description_values description).length ≤ i → i < 14 →
      (extract_person_description child_num description)[i]? =
        (person_description_keys[i]?).map (fun k =>
          { page := child_num, level := "child", type := k, value := some "",
            confidence := "100.00%" })) := by
  refine ⟨?_, fun i => extract_person_description_getElem child_num description i,
    ?_, ?_⟩
  · apply List.ext_getElem?
    intro i
    rw [List.getElem?_map, extract_person_description_getElem]
    cases hk : person_description_keys[i]? with
    | none => rfl
    | some k =>
      simp only [Option.map_some']
      simp only [expected_person_row]
      split <;> rfl
  · rw [extract_person_description_getElem]
    rw [show person_description_keys[1]? = some "age" from rfl]
    simp only [Option.map_some']
    simp only [expected_person_row, List.getD_eq_getElem?_getD]
    by_cases hv : (person_description_values description)[1]?.getD "" = ""
    · rw [if_pos hv, hv]
    · rw [if_neg hv, lookup_age]
  · intro i hlen hi
    rw [extract_person_description_getElem]
    cases hk : person_description_keys[i]? with
    | none => rfl
    | some k =>
      simp only [Option.map_some']
      simp only [expected_person_row, List.getD_eq_getElem?_getD]
      have hv : (person_description_values description)[i]?.getD "" = "" := by
        rw [List.getElem?_eq_none hlen]
        rfl
      rw [if_pos hv]

/-- Claim C3, witness: the theorem at the two-token blob `"A 28"` — token 0
decodes through the `injury_severity` table, token 1 (`age`) passes through
verbatim, and the missing trailing field at index 5 resolves to the empty
string. -/
theorem claim_C3_witness :
    (extract_person_description 1 "A 28")[1]? =
      some { page := 1, level := "child", type := "age", value := some "28",
             confidence := "100.00%" } ∧
    (extract_person_description 1 "A 28")[5]? =
      some { page := 1, level := "child", type := "restr", value := some "",
             confidence := "100.00%" } := by
  constructor
  · have h := (claim_C3_person_description 1 "A 28").2.2.1
    rw [h]
    decide
  · have h := (claim_C3_person_description 1 "A 28").2.2.2 5 (by decide) (by decide)
    rw [h]
    decide

/-- Claim C10: for every blob (including empty blobs and blobs with more
than fourteen tokens) the extractor returns exactly fourteen rows whose
`Type` values are the fourteen fixed keys in their fixed order, and the
output depends only on the first fourteen tokens — tokens beyond the
fourteenth are silently discarded. -/
theorem claim_C10_person_rows_shape (child_num : Nat) (d1 d2 : String)
    (h : (person_description_values d1).take 14 =
      (person_description_values d2).take 14) :
    (extract_person_description child_num d1).length = 14 ∧
    ((extract_person_description child_num d1).map (·.type) =
      person_description_keys) ∧
    extract_person_description child_num d1 =
      extract_person_description child_num d2 := by
  refine ⟨?_, ?_, ?_⟩
  · simp [extract_person_description]
    rfl
  · apply List.ext_getElem?
    intro i
    rw [List.getElem?_map, extract_person_description_getElem]
    cases hk : person_description_keys[i]? with
    | none => rfl
    | some k =>
      simp only [Option.map_some']
      simp only [expected_person_row]
      split <;> rfl
  · apply List.ext_getElem?
    intro i
    rw [extract_person_description_getElem, extract_person_description_getElem]
    cases hk : person_description_keys[i]? with
    | none => rfl
    | some k =>
      simp only [Option.map_some']
      have hi : i < 14 := by
        obtain ⟨hlt, _⟩ := List.getElem?_eq_some_iff.mp hk
        exact hlt
      have hv : (person_description_values d1)[i]?.getD "" =
          (person_description_values d2)[i]?.getD "" := by
        rw [← List.getElem?_take_of_lt (l := person_description_values d1) hi, h,
          List.getElem?_take_of_lt hi]
      simp only [expected_person_row, List.getD_eq_getElem?_getD]
      rw [hv]

/-- Claim C10, witness: a sixteen-token blob and its first-fourteen-token
truncation produce identical output; the two extra tokens never appear. -/
theorem claim_C10_witness :
    extract_person_description 1 "A 28 W 1 1 1 1 1 N 96 96 97 97 96 EXTRA TOKENS" =
      extract_person_description 1 "A 28 W 1 1 1 1 1 N 96 96 97 97 96" ∧
    (extract_person_description 1
      "A 28 W 1 1 1 1 1 N 96 96 97 97 96 EXTRA TOKENS").length = 14 := by
  have h := claim_C10_person_rows_shape 1
    "A 28 W 1 1 1 1 1 N 96 96 97 97 96 EXTRA TOKENS"
    "A 28 W 1 1 1 1 1 N 96 96 97 97 96" (by decide)
  exact ⟨h.2.2, h.1⟩

/-- The failure pattern of the claimed page-orchestration example: five
pages, of which page 3's processing raises. -/
def c4_example_proc : Nat → Except String (String × Unit) :=
  fun i => if i = 3 then Except.error "OCR failure" else Except.ok (Nat.repr i, ())

/-- Claim C4: a page whose processing (OCR call or per-page transformation,
both inside the same `try`) raises is recorded as `None` at its index and
does not abort the other pages; the final pages list contains exactly the
successfully processed pages, in strictly ascending page-number order, and
its length is the number of successful pages; in particular five pages
with page 3 failing yield the four pages `[1, 2, 4, 5]`. -/
theorem claim_C4_page_orchestration {α : Type} (total_pages : Nat)
    (proc : Nat → Except String (String × α)) :
    (List.Pairwise (· < ·)
      (((process_document_page_by_page total_pages proc).pages).map
        (·.page_number))) ∧
    (∀ pd : PageData α,
      pd ∈ (process_document_page_by_page total_pages proc).pages ↔
        (1 ≤ pd.page_number ∧ pd.page_number ≤ total_pages ∧
          proc pd.page_number = Except.ok (pd.text, pd.hierarchical_fields))) ∧
    ((process_document_page_by_page total_pages proc).pages.length =
      ((List.range total_pages).filter (fun idx => (proc (idx + 1)).isOk)).length) ∧
    (((process_document_page_by_page 5 c4_example_proc).pages).map
      (·.page_number) = [1, 2, 4, 5]) ∧
    ((process_document_page_by_page 5 c4_example_proc).pages.length = 4) := by
  refine ⟨?_, ?_, ?_, by decide, by decide⟩
  · rw [process_pages_map_page_number]
    rw [List.pairwise_map]
    exact ((List.pairwise_lt_range total_pages).filter _).imp
      (fun hab => Nat.succ_lt_succ hab)
  · intro pd
    rw [process_pages_eq]
    constructor
    · intro hmem
      obtain ⟨idx, hidx, heq⟩ := List.mem_filterMap.mp hmem
      cases hp : proc (idx + 1) with
      | ok tc =>
        rw [hp] at heq
        simp only [Option.some.injEq] at heq
        subst heq
        dsimp only
        have := List.mem_range.mp hidx
        exact ⟨by omega, by omega, by rw [hp]⟩
      | error e =>
        rw [hp] at heq
        simp at heq
    · rintro ⟨h1, h2, h3⟩
      apply List.mem_filterMap.mpr
      refine ⟨pd.page_number - 1, List.mem_range.mpr (by omega), ?_⟩
      have hidx : pd.page_number - 1 + 1 = pd.page_number := by omega
      rw [hidx, h3]
  · have hmap := process_pages_map_page_number total_pages proc
    have := congrArg List.length hmap
    simpa using this

/-- The unit-1 factors record of the claimed unit-linking example. -/
def c5_factors_unit1 : BParent :=
  ⟨[("unit_contributing_factors",
    [⟨"", [⟨"unit_num_contributing", "1"⟩,
           ⟨"contributing_contributing_factors", "20"⟩]⟩])]⟩

/-- The unit-2 factors record of the claimed unit-linking example. -/
def c5_factors_unit2 : BParent :=
  ⟨[("unit_contributing_factors",
    [⟨"", [⟨"unit_num_contributing", "2"⟩, ⟨"weather_cond", "1"⟩]⟩])]⟩

/-- Claim C5: for a vehicle unit with unit number `u`, the per-unit view
collects exactly the `charges`, `factors_conditions`, and
`disposition_of_injured_killed` field occurrences whose unit-number
grandchild entity (`unit_num_charges`, `unit_num_contributing`,
`unit_num_disp` respectively) equals `u` — a filter over every record in
document order, duplicates included; in particular the factors record with
`unit_num_contributing = "2"` is included in the unit-2 view and the one
with `unit_num_contributing = "1"` is excluded. -/
theorem claim_C5_unit_linking (u : String)
    (charges factors dispositions : List BParent) :
    (charges_for_unit u charges = charges.flatMap (fun ce =>
      ((child_fields_get ce "unit_num").filter
        (has_unit_entity "unit_num_charges" u)).map (fun f =>
          { person_num := next_value f.entities "person_num_charges",
            charge := next_value f.entities "charge",
            citation := next_value f.entities "citation_ref_num" }))) ∧
    (factors_for_unit u factors = factors.flatMap (fun fe =>
      ((child_fields_get fe "unit_contributing_factors").filter
        (has_unit_entity "unit_num_contributing" u)).map (fun f =>
          factor_detail f.entities))) ∧
    (disposition_for_unit u dispositions = dispositions.flatMap (fun de =>
      ((child_fields_get de "unit_num_disposition").filter
        (has_unit_entity "unit_num_disp" u)).map (fun f =>
          { person_num := next_value f.entities "person_num_disposition",
            taken_to := next_value f.entities "taken_to",
            taken_by := next_value f.entities "taken_by" }))) ∧
    (factors_for_unit "2" [c5_factors_unit1, c5_factors_unit2] =
      [factor_detail [⟨"unit_num_contributing", "2"⟩, ⟨"weather_cond", "1"⟩]]) ∧
    (factors_for_unit "1" [c5_factors_unit1, c5_factors_unit2] =
      [factor_detail [⟨"unit_num_contributing", "1"⟩,
        ⟨"contributing_contributing_factors", "20"⟩]]) := by
  refine ⟨?_, ?_, ?_, by decide, by decide⟩
  · induction charges with
    | nil => rfl
    | cons ce rest ih => rw [charges_for_unit, List.flatMap_cons, charge_rows_eq, ih]
  · induction factors with
    | nil => rfl
    | cons fe rest ih => rw [factors_for_unit, List.flatMap_cons, factor_rows_eq, ih]
  · induction dispositions with
    | nil => rfl
    | cons de rest ih =>
      rw [disposition_for_unit, List.flatMap_cons, disposition_rows_eq, ih]

/-- Claim C6: section assignment follows the prefix rule — the lower-cased
type string, or its part before the first `/`, must start with a section
name; the first matching section of `main_sections` wins (`find?`); a field
typed `"vehicle_driver_persons/unit_num"` goes to `vehicle_driver_persons`,
a field typed `"unknown_garbage"` matches nothing, is dropped without
error, and appears in no section's output (each section's output is the
in-order filter of the fields assigned to it). -/
theorem claim_C6_section_assignment :
    (get_entity_section "vehicle_driver_persons/unit_num" =
      some "vehicle_driver_persons") ∧
    (get_entity_section "unknown_garbage" = none) ∧
    (∀ t sec, get_entity_section t = some sec → sec ∈ main_sections ∧
      (pyStartswith (pyLower t) sec = true ∨
       pyStartswith ((pySplitChar '/' (pyLower t)).headD "") sec = true)) ∧
    (∀ t, get_entity_section t = none →
      (∀ sec ∈ main_sections, pyStartswith (pyLower t) sec = false) ∧
      ((pyLower t).data.contains '/' = true →
        ∀ sec ∈ main_sections,
          pyStartswith ((pySplitChar '/' (pyLower t)).headD "") sec = false)) ∧
    (∀ entities : List RawEntity, document_sections entities =
      main_sections.map (fun s => (s, (entities.filter
        (fun e => get_entity_section e.type = some s)).map entity_info))) ∧
    (∀ v : String, document_sections [⟨"unknown_garbage", v⟩] =
      main_sections.map (fun s => (s, []))) := by
  refine ⟨by decide, by decide, ?_, ?_, document_sections_eq, ?_⟩
  · intro t sec h
    unfold get_entity_section at h
    dsimp only at h
    cases hfind : main_sections.find? (fun s => pyStartswith (pyLower t) s) with
    | some s =>
      rw [hfind] at h
      simp only [Option.some.injEq] at h
      subst h
      exact ⟨List.mem_of_find?_eq_some hfind, Or.inl (List.find?_some hfind)⟩
    | none =>
      rw [hfind] at h
      by_cases hsl : (pyLower t).data.contains '/'
      · rw [if_pos hsl] at h
        exact ⟨List.mem_of_find?_eq_some h, Or.inr (List.find?_some h)⟩
      · rw [if_neg hsl] at h
        exact absurd h (by simp)
  · intro t h
    unfold get_entity_section at h
    dsimp only at h
    cases hfind : main_sections.find? (fun s => pyStartswith (pyLower t) s) with
    | some s =>
      rw [hfind] at h
      exact absurd h (by simp)
    | none =>
      rw [hfind] at h
      constructor
      · intro sec hsec
        have := List.find?_eq_none.mp hfind sec hsec
        simpa using this
      · intro hsl sec hsec
        rw [if_pos hsl] at h
        have := List.find?_eq_none.mp h sec hsec
        simpa using this
  · intro v
    rw [document_sections_eq]
    apply List.map_congr_left
    intro s hs
    simp [List.filter_cons,
      show get_entity_section "unknown_garbage" = none from by decide]

/-- Claim C6, witness: the prefix-rule characterization applied to the
slash-typed field of the claim, and the drop behavior on a one-field list. -/
theorem claim_C6_witness :
    ("vehicle_driver_persons" ∈ main_sections ∧
      (pyStartswith (pyLower "vehicle_driver_persons/unit_num")
        "vehicle_driver_persons" = true ∨
       pyStartswith ((pySplitChar '/'
         (pyLower "vehicle_driver_persons/unit_num")).headD "")
        "vehicle_driver_persons" = true)) ∧
    document_sections [⟨"unknown_garbage", "x"⟩] =
      main_sections.map (fun s => (s, [])) :=
  ⟨claim_C6_section_assignment.2.2.1 "vehicle_driver_persons/unit_num"
      "vehicle_driver_persons" (by decide),
   claim_C6_section_assignment.2.2.2.2.2 "x"⟩

/-- Claim C8, counterexample: on page 1, the identification-location sheets
for parent indices 10000 and 10001 both truncate to the same 31-character
name `"P1_identification_location_1000"` — two distinct
(page, section, parent-record-index) sheets share one name, and no numeric
suffix is appended after truncation. -/
theorem claim_C8_counterexample :
    identification_sheet_name 1 10000 = "P1_identification_location_1000" ∧
    identification_sheet_name 1 10001 = "P1_identification_location_1000" ∧
    (10000 : Nat) ≠ 10001 := by
  refine ⟨by decide, by decide, by decide⟩

/-- Claim C8, amended: sheet names are the first 31 characters of
`P{page}_identification_location_{idx}` (resp. `P{page}_{section}_{idx}`)
and no suffix is appended on collision; distinct parent indices are
guaranteed distinct names only when both untruncated names fit within the
31-character limit — truncation can erase the distinguishing index (see
the counterexample). -/
theorem claim_C8_sheet_names_amended (page_num i j : Nat) (parent_type : String)
    (hij : i ≠ j)
    (hi : ("P" ++ Nat.repr page_num ++ "_identification_location_" ++
      Nat.repr i).data.length ≤ 31)
    (hj : ("P" ++ Nat.repr page_num ++ "_identification_location_" ++
      Nat.repr j).data.length ≤ 31)
    (hoi : ("P" ++ Nat.repr page_num ++ "_" ++ parent_type ++ "_" ++
      Nat.repr i).data.length ≤ 31)
    (hoj : ("P" ++ Nat.repr page_num ++ "_" ++ parent_type ++ "_" ++
      Nat.repr j).data.length ≤ 31) :
    identification_sheet_name page_num i ≠ identification_sheet_name page_num j ∧
    other_section_sheet_name page_num parent_type i ≠
      other_section_sheet_name page_num parent_type j := by
  constructor
  · intro heq
    unfold identification_sheet_name at heq
    rw [pySlice31_of_le _ hi, pySlice31_of_le _ hj] at heq
    exact hij (nat_repr_injective (string_append_cancel_left heq))
  · intro heq
    unfold other_section_sheet_name at heq
    rw [pySlice31_of_le _ hoi, pySlice31_of_le _ hoj] at heq
    exact hij (nat_repr_injective (string_append_cancel_left heq))

/-- Claim C8, witness: the amended theorem at page 1, indices 1 and 2, and
section `damage` — both names fit in 31 characters, so they stay distinct. -/
theorem claim_C8_witness :
    identification_sheet_name 1 1 ≠ identification_sheet_name 1 2 ∧
    other_section_sheet_name 1 "damage" 1 ≠ other_section_sheet_name 1 "damage" 2 :=
  claim_C8_sheet_names_amended 1 1 2 "damage" (by decide) (by decide) (by decide)
    (by decide) (by decide)

/-- Claim C9: for a field whose (normalized, lower-case) type name is one of
the five checkbox types, the rendered value is `"true"` exactly when the
raw value contains the filled-checkbox glyph and `"false"` otherwise (the
code tests the lower-cased value, which neither creates nor destroys the
glyph); for every other field type the rendered value is
`Dictionary.lookup` keyed by the field's own type name. -/
theorem claim_C9_boolean_rendering (types string : String)
    (hnorm : pyLower types = types) :
    (types ∈ elgible_type → match_string_for_boolean types string =
      some (if pyIn "☑" string then "true" else "false")) ∧
    (types ∉ elgible_type → match_string_for_boolean types string =
      Dictionary.lookup types string) := by
  constructor
  · intro hmem
    unfold match_string_for_boolean
    rw [hnorm, if_pos hmem, pyIn_checkbox_pyLower]
  · intro hmem
    unfold match_string_for_boolean
    rw [hnorm, if_neg hmem]

/-- Claim C9, witness: a checked `outside_city_limit` box renders `"true"`,
and a non-checkbox type routes through `Dictionary.lookup`. -/
theorem claim_C9_witness :
    match_string_for_boolean "outside_city_limit" "☑" = some "true" ∧
    match_string_for_boolean "distraction" "20" =
      Dictionary.lookup "distraction" "20" := by
  constructor
  · have h := (claim_C9_boolean_rendering "outside_city_limit" "☑"
      (by decide)).1 (by decide)
    rw [h]
    decide
  · exact (claim_C9_boolean_rendering "distraction" "20" (by decide)).2 (by decide)
